import Mathlib

/-!
Verification of the error-classification wrapper of the `backoff` crate
(`src/error.rs`), via a shallow embedding in Lean 4.

The crate defines `Error<E>`, a tagged union with variants `Permanent(E)`
and `Transient(E, Option<Duration>)`, together with `Display`, `Debug`,
`std::error::Error` (description / source / cause) implementations and a
blanket `From<E> for Error<E>` conversion yielding `Transient(err, None)`.

The embedding below mirrors that file:
* `Duration` models `instant::Duration` (seconds plus sub-second
  nanoseconds, both unbounded naturals here; the crate applies no
  arithmetic to them, so widths play no role).
* `Error E` is the enum itself.
* The trait methods of the underlying error type `E` (its `Display`
  text, `Debug` text and `source`) are given by an `ErrorImpl E S`
  record, `S` being the type of values returned by `source`; each
  wrapper method is a Lean function taking such a record, translated
  clause by clause from the corresponding `impl` block.
-/

namespace Backoff

/-- Model of `instant::Duration`: whole seconds plus sub-second
nanoseconds. -/
structure Duration where
  secs : Nat
  nanos : Nat
deriving DecidableEq, Repr

/-- `Duration::from_secs`. -/
def Duration.fromSecs (s : Nat) : Duration := ⟨s, 0⟩

/-- The zero duration (`Duration::from_secs(0)`). -/
def Duration.zero : Duration := ⟨0, 0⟩

/-- The enum `Error<E>` of `src/error.rs`: `Permanent(E)` or
`Transient(E, Option<Duration>)`. -/
inductive Error (E : Type) where
  | Permanent : E → Error E
  | Transient : E → Option Duration → Error E
deriving DecidableEq

/-- The behaviour of the underlying error type `E` that the wrapper's
trait implementations delegate to: its `Display` text, its `Debug` text
and its `source` (returning values of some type `S`). -/
structure ErrorImpl (E : Type) (S : Type) where
  display : E → String
  debug : E → String
  source : E → Option S

variable {E S F : Type}

/-- `impl fmt::Display for Error<E>`: both match arms
(`Permanent(ref err) | Transient(ref err, _)`) forward to `err.fmt(f)`,
i.e. the underlying error's own display text. -/
def Error.display (impl : ErrorImpl E S) : Error E → String
  | .Permanent err => impl.display err
  | .Transient err _ => impl.display err

/-- `impl fmt::Debug for Error<E>`: picks the variant name
(`"Permanent"` / `"Transient"`) and renders
`f.debug_tuple(name).field(err).finish()`, which prints as
`name(<debug of err>)`; the `Option<Duration>` field is matched with `_`
and never printed. -/
def Error.debug (impl : ErrorImpl E S) : Error E → String
  | .Permanent err => "Permanent(" ++ impl.debug err ++ ")"
  | .Transient err _ => "Transient(" ++ impl.debug err ++ ")"

/-- `Error::description` from `impl error::Error for Error<E>`: a fixed
string per variant. -/
def Error.description : Error E → String
  | .Permanent _ => "permanent error"
  | .Transient _ _ => "transient error"

/-- `Error::source` from `impl error::Error for Error<E>`: both match
arms forward to `err.source()`, the underlying error's own source. -/
def Error.source (impl : ErrorImpl E S) : Error E → Option S
  | .Permanent err => impl.source err
  | .Transient err _ => impl.source err

/-- `Error::cause` from `impl error::Error for Error<E>`: defined as
`self.source()`. -/
def Error.cause (impl : ErrorImpl E S) (x : Error E) : Option S :=
  x.source impl

/-- `impl<E> From<E> for Error<E>`: `from(err)` returns
`Error::Transient(err, None)`. (`from` is a Lean keyword, hence the
name `fromE`.) -/
def Error.fromE (err : E) : Error E :=
  .Transient err none

/-- Payload accessor: the wrapped underlying error of either variant
(field access on the matched variant). -/
def Error.inner : Error E → E
  | .Permanent err => err
  | .Transient err _ => err

/-- Payload accessor: the optional explicit delay (only the `Transient`
variant carries one). -/
def Error.delay : Error E → Option Duration
  | .Permanent _ => none
  | .Transient _ d => d

/-- Extract the payloads of a classification and re-wrap them with the
same variant and the same delay. -/
def Error.rewrap : Error E → Error E
  | .Permanent err => .Permanent err
  | .Transient err d => .Transient err d

/-- Discriminator: is this classification `Permanent`? -/
def Error.isPermanent : Error E → Bool
  | .Permanent _ => true
  | .Transient _ _ => false

end Backoff

namespace Backoff

/-- C1: for every underlying error value `e`, the default conversion
`From<E>::from` yields exactly `Transient(e, None)` — the `Transient`
variant holding `e` with an absent explicit delay, never any other
variant or delay. -/
theorem fromE_eq_transient_none (E : Type) (e : E) :
    Error.fromE e = Error.Transient e none :=
  rfl

/-- C2: for every underlying error value `e` and every optional delay
`d`, the display rendering of `Permanent(e)` and of `Transient(e, d)` is
exactly the display text of `e` itself; in particular `Permanent(e)` and
`Transient(e, None)` render identical display text, and neither the
variant tag nor the delay appears in display output. -/
theorem display_delegates (E S : Type) (impl : ErrorImpl E S) (e : E)
    (d : Option Duration) :
    (Error.Permanent e).display impl = impl.display e ∧
    (Error.Transient e d).display impl = impl.display e ∧
    (Error.Permanent e).display impl = (Error.Transient e none).display impl :=
  ⟨rfl, rfl, rfl⟩

/-- C3: for every underlying error value `e` and every optional delay
`d`, the `source` accessor of `Permanent(e)` and of `Transient(e, d)`
equals `e`'s own source: the same source when `e` has one, and `none`
when `e` has none — the wrapper inserts no synthetic node in the
chain. -/
theorem source_delegates (E S : Type) (impl : ErrorImpl E S) (e : E)
    (d : Option Duration) :
    (Error.Permanent e).source impl = impl.source e ∧
    (Error.Transient e d).source impl = impl.source e :=
  ⟨rfl, rfl⟩

/-- C4: for every underlying error value `e`, the debug rendering of
`Permanent(e)` is `"Permanent(" ++ debug(e) ++ ")"`, and for every
optional delay `d` the debug rendering of `Transient(e, d)` is
`"Transient(" ++ debug(e) ++ ")"`; the delay, present or absent, never
appears in debug output. -/
theorem debug_tagged (E S : Type) (impl : ErrorImpl E S) (e : E)
    (d : Option Duration) :
    (Error.Permanent e).debug impl = "Permanent(" ++ impl.debug e ++ ")" ∧
    (Error.Transient e d).debug impl = "Transient(" ++ impl.debug e ++ ")" :=
  ⟨rfl, rfl⟩

/-- C5: construction is total and unvalidated: for every `e`,
`Permanent(e)` is a value holding `e`; for every `e` and every duration
`d` — the zero duration included — `Transient(e, Some d)` and
`Transient(e, None)` are values holding exactly `e` and exactly that
delay; no constructor fails and no range check is applied to the
delay. -/
theorem construction_total (E : Type) (e : E) (d : Duration) :
    (Error.Permanent e).inner = e ∧
    (Error.Transient e (some d)).inner = e ∧
    (Error.Transient e (some d)).delay = some d ∧
    (Error.Transient e none).inner = e ∧
    (Error.Transient e none).delay = none ∧
    (Error.Transient e (some Duration.zero)).delay = some Duration.zero :=
  ⟨rfl, rfl, rfl, rfl, rfl, rfl⟩

/-- C7: round-trip: extracting the wrapped underlying error (and, for
`Transient`, the optional delay) and re-wrapping with the same variant
and delay reproduces the very same value, hence identical display text,
identical debug text, and identical source results. -/
theorem rewrap_roundtrip (E S : Type) (impl : ErrorImpl E S) (x : Error E) :
    x.rewrap = x ∧
    x.rewrap.display impl = x.display impl ∧
    x.rewrap.debug impl = x.debug impl ∧
    x.rewrap.source impl = x.source impl := by
  cases x <;> exact ⟨rfl, rfl, rfl, rfl⟩

/-- C6: for every underlying error value `e` and every optional delay
`d`, the `description` accessor returns the fixed string
`"permanent error"` on `Permanent(e)` and the fixed string
`"transient error"` on `Transient(e, d)`, independent of `e` and of the
delay. -/
theorem description_fixed (E : Type) (e : E) (d : Option Duration) :
    (Error.Permanent e).description = "permanent error" ∧
    (Error.Transient e d).description = "transient error" :=
  ⟨rfl, rfl⟩

/-- C8: constructing `Transient(e, Some(Duration::from_secs(5)))`
preserves the 5-second duration unchanged through construction and field
access: the delay accessor returns exactly that duration, whose seconds
field is 5 and nanoseconds field is 0 — no rounding or unit-conversion
loss. -/
theorem transient_preserves_delay (E : Type) (e : E) :
    (Error.Transient e (some (Duration.fromSecs 5))).delay
      = some (Duration.fromSecs 5) ∧
    (Duration.fromSecs 5).secs = 5 ∧ (Duration.fromSecs 5).nanos = 0 :=
  ⟨rfl, rfl, rfl⟩

/-- C9: the default conversion is uniform in the error type, so it
applies to the classification type itself: converting a value
`x : Error F` — even a `Permanent` one — yields
`Transient(x, None)` at the outer layer; and at every error type the
default path never produces a `Permanent` variant. -/
theorem fromE_uniform (F : Type) (x : Error F) :
    Error.fromE x = Error.Transient x none ∧
    Error.fromE (Error.Permanent x.inner)
      = Error.Transient (Error.Permanent x.inner) none ∧
    (∀ (E : Type) (e : E), (Error.fromE e).isPermanent = false) :=
  ⟨rfl, rfl, fun _ _ => rfl⟩

/-- C10: for every classification value of either variant, the legacy
`cause` accessor returns exactly the same result as the `source`
accessor; the two can never disagree. -/
theorem cause_eq_source (E S : Type) (impl : ErrorImpl E S) (x : Error E) :
    x.cause impl = x.source impl :=
  rfl

end Backoff
